import Mathlib

/-!
Verification of the Chronicle fitness-coaching application (`src/app.py`).

The definitions below are a shallow embedding of the data model and of the
HTTP handlers that the verified claims concern.  Python `float` columns are
modelled as `ℚ`, nullable columns as `Option`, and the relational store as
Lean lists of rows.  Row mutation through the SQLAlchemy session is modelled
by pure state-passing functions; a handler that answers an HTTP error before
performing any write is modelled as an `Except`/`Option` failure, which by
construction leaves the store unchanged.
-/

namespace Chronicle

/-- Python truthiness of an optional numeric value (`if r.velocity`):
both `None` and `0` are falsy. -/
def qTruthy : Option ℚ → Bool
  | none => false
  | some x => x != 0

/-- Python truthiness of an optional integer column (`if program.coach_id`):
`None` and `0` are falsy; real foreign keys are positive. -/
def natOptTruthy : Option Nat → Bool
  | none => false
  | some n => n != 0

/-- Python truthiness of an optional string (`if data.get('video_url')`):
`None` and the empty string are falsy. -/
def strOptTruthy : Option String → Bool
  | none => false
  | some s => !s.isEmpty

/-- Row of the `Rep` table: one repetition logged under a `Set`.
`depth`, `time_seconds` and `velocity` are nullable float columns. -/
structure Rep where
  id : Nat
  rep_number : Nat
  depth : Option ℚ
  time_seconds : Option ℚ
  velocity : Option ℚ
  quality : Option String
deriving DecidableEq

/-- Row of the `Set` table together with its child `Rep` rows
(the `reps` relationship).  The five aggregate columns are nullable. -/
structure WorkoutSet where
  id : Nat
  set_number : Nat
  reps_completed : Int
  avg_depth : Option ℚ
  avg_velocity : Option ℚ
  min_velocity : Option ℚ
  max_velocity : Option ℚ
  fatigue_drop : Option ℚ
  reps : List Rep
deriving DecidableEq

/-- One entry of the `reps` array in the JSON payload of `add_set`. -/
structure RepData where
  depth : Option ℚ
  time_seconds : Option ℚ
  velocity : Option ℚ
  quality : Option String
deriving DecidableEq

/-- JSON payload of `add_set`: `data.get('reps', [])`,
`data.get('reps_completed', ...)` and `data.get('fatigue_drop')`.
An `Option` field is `none` when the key is absent from the payload. -/
structure SetPayload where
  reps : List RepData
  reps_completed : Option Int
  fatigue_drop : Option ℚ
deriving DecidableEq

/-- The list comprehension `[f(r) for r in reps if f(r)]` used throughout the
aggregate code: it keeps exactly the values that are neither `None` nor `0`
(Python truthiness). -/
def presentVals {α : Type} (f : α → Option ℚ) (l : List α) : List ℚ :=
  l.filterMap (fun a => match f a with
    | some v => if v = 0 then none else some v
    | none => none)

/-- `sum(xs) / len(xs) if xs else None`. -/
def listMean (l : List ℚ) : Option ℚ :=
  if l.isEmpty then none else some (l.sum / (l.length : ℚ))

/-- `min(xs) if xs else None`. -/
def listMin : List ℚ → Option ℚ
  | [] => none
  | x :: xs => some (xs.foldl min x)

/-- `max(xs) if xs else None`. -/
def listMax : List ℚ → Option ℚ
  | [] => none
  | x :: xs => some (xs.foldl max x)

/-- The four derived aggregate columns of a `Set`. -/
structure Aggs where
  avg_depth : Option ℚ
  avg_velocity : Option ℚ
  min_velocity : Option ℚ
  max_velocity : Option ℚ
deriving DecidableEq

/-- The aggregate-recalculation block that appears verbatim in both
`add_rep_to_set` and `delete_rep_from_set`:

    depths = [r.depth for r in reps if r.depth]
    velocities = [r.velocity for r in reps if r.velocity]
    workout_set.avg_depth = sum(depths) / len(depths) if depths else None
    workout_set.avg_velocity = sum(velocities) / len(velocities) if velocities else None
    workout_set.min_velocity = min(velocities) if velocities else None
    workout_set.max_velocity = max(velocities) if velocities else None
-/
def recalcAggs (reps : List Rep) : Aggs :=
  { avg_depth := listMean (presentVals Rep.depth reps)
    avg_velocity := listMean (presentVals Rep.velocity reps)
    min_velocity := listMin (presentVals Rep.velocity reps)
    max_velocity := listMax (presentVals Rep.velocity reps) }

/-- Write recomputed aggregates onto the `Set` row; all other columns
(`fatigue_drop` in particular) are untouched. -/
def setAggs (s : WorkoutSet) (a : Aggs) : WorkoutSet :=
  { s with avg_depth := a.avg_depth, avg_velocity := a.avg_velocity,
           min_velocity := a.min_velocity, max_velocity := a.max_velocity }

/-- `last_rep = Rep.query.filter_by(set_id=set_id).order_by(Rep.rep_number.desc()).first()`
followed by `rep_number = (last_rep.rep_number + 1) if last_rep else 1`:
the successor of the largest existing `rep_number` (and `1` on an empty set,
which the fold also yields). -/
def nextRepNumber (reps : List Rep) : Nat :=
  reps.foldl (fun m r => max m r.rep_number) 0 + 1

/-- Handler `add_rep_to_set` (POST `/api/sets/<set_id>/reps`), ownership check
already passed.  The new rep carries only `depth` and `quality`
(`time_seconds` and `velocity` are not settable manually).  The line
`workout_set.reps_completed = workout_set.reps.count() + 1` runs after
`db.session.add(rep)`: the session autoflushes the pending rep before the
COUNT query (SQLAlchemy autoflush is enabled), so the count already includes
the new rep and the stored value is the rep count plus one.  The aggregate
recalculation afterwards reads `workout_set.reps.all()` post-commit, i.e.
the list including the new rep. -/
def add_rep_to_set (s : WorkoutSet) (freshId : Nat) (depth : Option ℚ)
    (quality : Option String) : WorkoutSet :=
  let rep : Rep :=
    { id := freshId, rep_number := nextRepNumber s.reps, depth := depth,
      time_seconds := none, velocity := none, quality := quality }
  let reps' := s.reps ++ [rep]
  let s' := { s with reps := reps', reps_completed := (reps'.length : Int) + 1 }
  setAggs s' (recalcAggs reps')

/-- Handler `delete_rep_from_set` (DELETE `/api/sets/<set_id>/reps/<rep_id>`),
ownership check already passed.  Returns `none` for the 404 "Rep not found"
reply (no state change).  Otherwise the rep row is deleted,
`reps_completed = max(0, reps_completed - 1)`, and the aggregates are
recomputed over the remaining reps — or all reset to `None` when no rep
remains. -/
def delete_rep_from_set (s : WorkoutSet) (rep_id : Nat) : Option WorkoutSet :=
  if (s.reps.find? (fun r => r.id == rep_id)).isSome then
    let reps' := s.reps.eraseP (fun r => r.id == rep_id)
    let s' := { s with reps := reps', reps_completed := max 0 (s.reps_completed - 1) }
    some (if reps'.isEmpty then
      { s' with avg_depth := none, avg_velocity := none,
                min_velocity := none, max_velocity := none }
    else setAggs s' (recalcAggs reps'))
  else none

/-- `last_set = Set.query.filter_by(...).order_by(Set.set_number.desc()).first()`
followed by `set_number = (last_set.set_number + 1) if last_set else 1`. -/
def nextSetNumber (sets : List WorkoutSet) : Nat :=
  sets.foldl (fun m s => max m s.set_number) 0 + 1

/-- The `Set` row built by `add_set` from a payload: aggregates are computed
from the payload's rep list with the same truthiness filters,
`reps_completed` defaults to `len(reps_data)` only when the key is absent,
and `fatigue_drop` is copied from the payload.  The child `Rep` rows are
created by `for i, rep_data in enumerate(reps_data)` with `rep_number = i + 1`. -/
def build_set (newSetId set_number repIdBase : Nat) (data : SetPayload) : WorkoutSet :=
  let velocities := presentVals RepData.velocity data.reps
  let depths := presentVals RepData.depth data.reps
  { id := newSetId
    set_number := set_number
    reps_completed := data.reps_completed.getD (data.reps.length : Int)
    avg_depth := listMean depths
    avg_velocity := listMean velocities
    min_velocity := listMin velocities
    max_velocity := listMax velocities
    fatigue_drop := data.fatigue_drop
    reps := data.reps.enum.map (fun p =>
      { id := repIdBase + p.1, rep_number := p.1 + 1, depth := p.2.depth,
        time_seconds := p.2.time_seconds, velocity := p.2.velocity,
        quality := p.2.quality }) }

/-- Handler `add_set` (POST `/api/workouts/<workout_id>/sets`), acting on the
workout's current list of sets; appends the newly built set. -/
def add_set (sets : List WorkoutSet) (newSetId repIdBase : Nat)
    (data : SetPayload) : List WorkoutSet :=
  sets ++ [build_set newSetId (nextSetNumber sets) repIdBase data]

/-- Handler `delete_set` (DELETE `/api/workouts/<workout_id>/sets/<set_id>`):
404 (`none`) when the set is not found, otherwise the row is deleted.
No renumbering of the remaining sets takes place. -/
def delete_set (sets : List WorkoutSet) (set_id : Nat) : Option (List WorkoutSet) :=
  if (sets.find? (fun s => s.id == set_id)).isSome then
    some (sets.eraseP (fun s => s.id == set_id))
  else none

/-- A workout history consisting only of `add_set` calls, starting from an
empty workout (fresh ids assigned by position). -/
def applyAddSets (ps : List SetPayload) : List WorkoutSet :=
  ps.foldl (fun acc p => add_set acc acc.length 0 p) []

/-- The `set_number` column of a workout's sets, in row order. -/
def setNumbers (sets : List WorkoutSet) : List Nat :=
  sets.map WorkoutSet.set_number

/-- The `rep_number` column of a set's reps, in row order. -/
def repNumbers (reps : List Rep) : List Nat :=
  reps.map Rep.rep_number

/-- Row of the `User` table (columns relevant to the claims). -/
structure User where
  id : Nat
  email : String
  subscribed : Bool
  stripe_customer_id : Option String
  subscription_type : Option String
  is_coach : Bool
  coach_id : Option Nat
  needs_password_setup : Bool
deriving DecidableEq

/-- Outcome of a page-rendering route for an authenticated principal:
either the page is served or the request is redirected. -/
inductive PageAccess
  | granted
  | redirectTo (endpoint : String)
deriving DecidableEq

/-- Route `/tracker` (`@login_required`):
`if not current_user.subscribed: return redirect(url_for('subscribe'))`. -/
def tracker (u : User) : PageAccess :=
  if !u.subscribed then .redirectTo "subscribe" else .granted

/-- Route `/dashboard` (`@login_required`): same subscription gate. -/
def dashboard (u : User) : PageAccess :=
  if !u.subscribed then .redirectTo "subscribe" else .granted

/-- Route `/programs` (`@login_required`): renders `programs.html`
unconditionally — there is no check of `current_user.subscribed`. -/
def programs_page (_u : User) : PageAccess :=
  .granted

/-- Row of the `Program` table (columns relevant to the claims):
`coach_id` is null for self-created programs. -/
structure Program where
  id : Nat
  coach_id : Option Nat
  athlete_id : Nat
deriving DecidableEq

/-- The write-access test repeated in the program/day/exercise handlers:

    can_edit = (program.coach_id == current_user.id) or \
               (not program.coach_id and program.athlete_id == current_user.id)

Under Python semantics `None == current_user.id` is `False` and
`not program.coach_id` is truthiness-based. -/
def can_edit (u : User) (p : Program) : Bool :=
  (p.coach_id == some u.id) || (!natOptTruthy p.coach_id && p.athlete_id == u.id)

/-- Row of the `ProgramExercise` table. -/
structure ProgramExercise where
  id : Nat
  program_day_id : Nat
  name : String
  video_url : Option String
  sets_prescribed : Int
  reps_prescribed : String
  weight_prescribed : Option String
  notes : Option String
  order : Int
  exercise_type : String
deriving DecidableEq

/-- JSON payload of `add_exercise` / `update_exercise`.  The outer `Option`
is key presence (`'field' in data`); for nullable columns the inner `Option`
is the transmitted value, which may itself be null. -/
structure ExercisePayload where
  name : Option String
  sets_prescribed : Option Int
  reps_prescribed : Option String
  weight_prescribed : Option (Option String)
  notes : Option (Option String)
  order : Option Int
  exercise_type : Option String
  video_url : Option (Option String)
deriving DecidableEq

/-- `last_ex = ...order_by(ProgramExercise.order.desc()).first()` followed by
`order = (last_ex.order + 1) if last_ex else 0`. -/
def nextExerciseOrder (exercises : List ProgramExercise) : Int :=
  match exercises with
  | [] => 0
  | e :: rest => rest.foldl (fun m x => max m x.order) e.order + 1

/-- Handler `add_exercise` (POST `/api/program-days/<day_id>/exercises`),
after the day lookup.  The constructed row leaves `video_url` at its column
default (`None`); only afterwards, `if current_user.is_coach and
data.get('video_url'): exercise.video_url = data['video_url']`. -/
def add_exercise (u : User) (prog : Program) (day_id : Nat)
    (exercises : List ProgramExercise) (freshId : Nat)
    (data : ExercisePayload) : Except String ProgramExercise :=
  if !can_edit u prog then .error "Access denied"
  else
    let exercise : ProgramExercise :=
      { id := freshId
        program_day_id := day_id
        name := data.name.getD "Exercise"
        video_url := none
        sets_prescribed := data.sets_prescribed.getD 3
        reps_prescribed := data.reps_prescribed.getD "8-10"
        weight_prescribed := data.weight_prescribed.join
        notes := data.notes.join
        order := nextExerciseOrder exercises
        exercise_type := data.exercise_type.getD "standard" }
    let exercise :=
      if u.is_coach && strOptTruthy data.video_url.join then
        { exercise with video_url := data.video_url.join }
      else exercise
    .ok exercise

/-- The field loop of `update_exercise`:

    for field in ['name', 'sets_prescribed', 'reps_prescribed',
                  'weight_prescribed', 'notes', 'order', 'exercise_type']:
        if field in data: setattr(exercise, field, data[field])

`video_url` is deliberately not in this list. -/
def applyExerciseFields (e : ProgramExercise) (data : ExercisePayload) : ProgramExercise :=
  let e1 := match data.name with | some v => { e with name := v } | none => e
  let e2 := match data.sets_prescribed with | some v => { e1 with sets_prescribed := v } | none => e1
  let e3 := match data.reps_prescribed with | some v => { e2 with reps_prescribed := v } | none => e2
  let e4 := match data.weight_prescribed with | some v => { e3 with weight_prescribed := v } | none => e3
  let e5 := match data.notes with | some v => { e4 with notes := v } | none => e4
  let e6 := match data.order with | some v => { e5 with order := v } | none => e5
  match data.exercise_type with | some v => { e6 with exercise_type := v } | none => e6

/-- Handler `update_exercise` (PUT `/api/exercises/<exercise_id>`), after the
exercise lookup: access check, the field loop, then
`if current_user.is_coach and 'video_url' in data:
exercise.video_url = data['video_url']`. -/
def update_exercise (u : User) (prog : Program) (e : ProgramExercise)
    (data : ExercisePayload) : Except String ProgramExercise :=
  if !can_edit u prog then .error "Access denied"
  else
    let e' := applyExerciseFields e data
    let e' :=
      if u.is_coach && data.video_url.isSome then
        { e' with video_url := data.video_url.join }
      else e'
    .ok e'

/-- Row of the `CoachInvite` table.  `accepted_at` is a timestamp modelled as
an abstract tick. -/
structure CoachInvite where
  id : Nat
  coach_id : Nat
  email : String
  token : String
  status : String
  accepted_at : Option Nat
  athlete_id : Option Nat
deriving DecidableEq

/-- The slice of the relational store used by the invite workflow. -/
structure JoinState where
  users : List User
  invites : List CoachInvite
deriving DecidableEq

/-- Mutating the single row returned by `query.filter_by(...).first()`:
update the first list element satisfying `p`. -/
def updateFirst {α : Type} (p : α → Bool) (f : α → α) : List α → List α
  | [] => []
  | x :: xs => if p x then f x :: xs else x :: updateFirst p f xs

/-- `CoachInvite.query.filter_by(token=token, status='pending')`. -/
def pendingTokenMatch (t : String) (i : CoachInvite) : Bool :=
  i.token == t && i.status == "pending"

/-- Autoincrement primary key for a new `User` row. -/
def nextUserId (users : List User) : Nat :=
  users.foldl (fun m u => max m u.id) 0 + 1

/-- Handler `process_join_invite` (POST `/join/<token>`).  The payload email
is taken already normalised (the source lower-cases and strips it).  An
`.error` reply is produced before any write, so it leaves the store
unchanged.  On success the redeeming user (existing or newly created) gets
`coach_id = invite.coach_id`, `subscribed = True`,
`subscription_type = 'coach'`, and the invite is marked accepted with the
athlete recorded. -/
def process_join_invite (st : JoinState) (token email password : String)
    (now : Nat) : Except String JoinState :=
  match st.invites.find? (pendingTokenMatch token) with
  | none => .error "Invalid or expired invitation link"
  | some invite =>
    if email.isEmpty || password.isEmpty then .error "Email and password required"
    else if password.length < 8 then .error "Password must be at least 8 characters"
    else
      match st.users.find? (fun v => v.email == email) with
      | some existing_user =>
        if natOptTruthy existing_user.coach_id
            && !(existing_user.coach_id == some invite.coach_id) then
          .error "This account already has a different coach"
        else
          let users' := updateFirst (fun v => v.email == email)
            (fun v => { v with coach_id := some invite.coach_id,
                               subscribed := true,
                               subscription_type := some "coach" }) st.users
          let invites' := updateFirst (pendingTokenMatch token)
            (fun i => { i with status := "accepted", accepted_at := some now,
                               athlete_id := some existing_user.id }) st.invites
          .ok { users := users', invites := invites' }
      | none =>
        let uid := nextUserId st.users
        let user : User :=
          { id := uid, email := email, subscribed := true,
            stripe_customer_id := none, subscription_type := some "coach",
            is_coach := false, coach_id := some invite.coach_id,
            needs_password_setup := false }
        let invites' := updateFirst (pendingTokenMatch token)
          (fun i => { i with status := "accepted", accepted_at := some now,
                             athlete_id := some uid }) st.invites
        .ok { users := st.users ++ [user], invites := invites' }

/-- The `checkout.session.completed` branch of the `stripe_webhook` handler:
look up the user by the checkout email; an existing user is re-marked
subscribed in place, otherwise a new account is created with
`needs_password_setup = True`.  `subscription_type` is already resolved from
the billing interval by the caller. -/
def checkout_completed (users : List User) (email : String)
    (customer_id : Option String) (subscription_type : String) : List User :=
  match users.find? (fun u => u.email == email) with
  | some _ =>
    updateFirst (fun u => u.email == email)
      (fun u => { u with subscribed := true, stripe_customer_id := customer_id,
                         subscription_type := some subscription_type }) users
  | none =>
    users ++ [{ id := nextUserId users, email := email, subscribed := true,
                stripe_customer_id := customer_id,
                subscription_type := some subscription_type,
                is_coach := false, coach_id := none,
                needs_password_setup := true }]

/-! ### Shared helper lemmas -/

theorem find?_updateFirst_map {α : Type} (p : α → Bool) (f : α → α)
    (hf : ∀ a, p (f a) = p a) (l : List α) :
    (updateFirst p f l).find? p = (l.find? p).map f := by
  induction l with
  | nil => rfl
  | cons x xs ih =>
    cases hx : p x with
    | true =>
      simp only [updateFirst, hx, if_true]
      rw [List.find?_cons_of_pos _ ((hf x).trans hx), List.find?_cons_of_pos _ hx]
      rfl
    | false =>
      simp only [updateFirst, hx, if_false, Bool.false_eq_true]
      rw [List.find?_cons_of_neg _ (by simp [hx]), List.find?_cons_of_neg _ (by simp [hx])]
      exact ih

theorem find?_updateFirst_of_found {α : Type} (p q : α → Bool) (f : α → α)
    (hpq : ∀ a, p a = true → q a = true) (hqf : ∀ a, q (f a) = q a)
    (l : List α) (hcount : l.countP q ≤ 1) (inv : α) (hfind : l.find? p = some inv) :
    (updateFirst p f l).find? q = some (f inv) := by
  induction l with
  | nil => simp at hfind
  | cons x xs ih =>
    cases hx : p x with
    | true =>
      rw [List.find?_cons_of_pos _ hx] at hfind
      obtain rfl : x = inv := by simpa using hfind
      simp only [updateFirst, hx, if_true]
      rw [List.find?_cons_of_pos _ ((hqf x).trans (hpq x hx))]
    | false =>
      rw [List.find?_cons_of_neg _ (by simp [hx])] at hfind
      have hqx : q x = false := by
        cases hq : q x with
        | false => rfl
        | true =>
          exfalso
          have hmem : inv ∈ xs := List.mem_of_find?_eq_some hfind
          have hqi : q inv = true := hpq inv (List.find?_some hfind)
          have h1 : 0 < xs.countP q := List.countP_pos_iff.mpr ⟨inv, hmem, hqi⟩
          rw [List.countP_cons_of_pos _ _ hq] at hcount
          omega
      have hcount' : xs.countP q ≤ 1 := by
        rw [List.countP_cons_of_neg _ _ (by simp [hqx])] at hcount; exact hcount
      simp only [updateFirst, hx, if_false, Bool.false_eq_true]
      rw [List.find?_cons_of_neg _ (by simp [hqx])]
      exact ih hcount' hfind

theorem find?_updateFirst_none {α : Type} (p q : α → Bool) (f : α → α)
    (hpq : ∀ a, p a = true → q a = true) (hf : ∀ a, p (f a) = false)
    (l : List α) (hcount : l.countP q ≤ 1) :
    (updateFirst p f l).find? p = none := by
  induction l with
  | nil => rfl
  | cons x xs ih =>
    cases hx : p x with
    | true =>
      simp only [updateFirst, hx, if_true]
      rw [List.find?_cons_of_neg _ (by simp [hf x])]
      have hqx : q x = true := hpq x hx
      have hzero : xs.countP q = 0 := by
        rw [List.countP_cons_of_pos _ _ hqx] at hcount; omega
      rw [List.find?_eq_none]
      intro a ha hpa
      have : q a = true := hpq a hpa
      have : 0 < xs.countP q := List.countP_pos_iff.mpr ⟨a, ha, this⟩
      omega
    | false =>
      have hcount' : xs.countP q ≤ 1 := by
        cases hq : q x with
        | true => rw [List.countP_cons_of_pos _ _ hq] at hcount; omega
        | false => rw [List.countP_cons_of_neg _ _ (by simp [hq])] at hcount; omega
      simp only [updateFirst, hx, if_false, Bool.false_eq_true]
      rw [List.find?_cons_of_neg _ (by simp [hx])]
      exact ih hcount'

theorem countP_updateFirst {α : Type} (p q : α → Bool) (f : α → α)
    (h : ∀ a, p (f a) = p a) (l : List α) :
    (updateFirst q f l).countP p = l.countP p := by
  induction l with
  | nil => rfl
  | cons x xs ih =>
    cases hx : q x with
    | true => simp [updateFirst, hx, List.countP_cons, h]
    | false => simp [updateFirst, hx, List.countP_cons, ih]

theorem mem_updateFirst_of_count_le_one {α : Type} (p : α → Bool) (f : α → α)
    (l : List α) (hcount : l.countP p ≤ 1) (c : α)
    (hc : c ∈ updateFirst p f l) (hpc : p c = true) :
    ∃ b, p b = true ∧ c = f b := by
  induction l with
  | nil => simp [updateFirst] at hc
  | cons x xs ih =>
    cases hx : p x with
    | true =>
      simp only [updateFirst, hx, if_true] at hc
      rcases List.mem_cons.mp hc with rfl | hmem
      · exact ⟨x, hx, rfl⟩
      · exfalso
        have : 0 < xs.countP p := List.countP_pos_iff.mpr ⟨c, hmem, hpc⟩
        rw [List.countP_cons_of_pos _ _ hx] at hcount
        omega
    | false =>
      simp only [updateFirst, hx, if_false, Bool.false_eq_true] at hc
      rcases List.mem_cons.mp hc with rfl | hmem
      · rw [hx] at hpc; exact absurd hpc (by simp)
      · have hcount' : xs.countP p ≤ 1 := by
          rw [List.countP_cons_of_neg _ _ (by simp [hx])] at hcount; omega
        exact ih hcount' hmem

theorem find?_append_of_none {α : Type} (p : α → Bool) (l₁ l₂ : List α)
    (h : l₁.find? p = none) : (l₁ ++ l₂).find? p = l₂.find? p := by
  induction l₁ with
  | nil => rfl
  | cons x xs ih =>
    have hx : p x = false := by
      cases hpx : p x with
      | false => rfl
      | true => rw [List.find?_cons_of_pos _ hpx] at h; exact absurd h (by simp)
    rw [List.find?_cons_of_neg _ (by simp [hx])] at h
    rw [List.cons_append, List.find?_cons_of_neg _ (by simp [hx])]
    exact ih h

theorem init_le_foldl_max (l : List Nat) (a : Nat) : a ≤ l.foldl max a := by
  induction l generalizing a with
  | nil => simp
  | cons y ys ih => exact Nat.le_trans (Nat.le_max_left a y) (ih (max a y))

theorem le_foldl_max (l : List Nat) (a x : Nat) (hx : x ∈ l) : x ≤ l.foldl max a := by
  induction l generalizing a with
  | nil => simp at hx
  | cons y ys ih =>
    rcases List.mem_cons.mp hx with rfl | hmem
    · calc x ≤ max a x := Nat.le_max_right a x
        _ ≤ ys.foldl max (max a x) := init_le_foldl_max ys (max a x)
    · exact ih (max a y) hmem

theorem foldl_max_range' (n : Nat) : (List.range' 1 n).foldl max 0 = n := by
  induction n with
  | zero => rfl
  | succ k ih =>
    have h := @List.range'_concat 1 1 k
    simp only [Nat.one_mul] at h
    rw [h, List.foldl_append, ih]
    simp only [List.foldl_cons, List.foldl_nil]
    omega

theorem pairwise_lt_append_next (l : List Nat) (h : l.Pairwise (· < ·)) :
    (l ++ [l.foldl max 0 + 1]).Pairwise (· < ·) := by
  rw [List.pairwise_append]
  refine ⟨h, List.pairwise_singleton _ _, ?_⟩
  intro x hx b hb
  rw [List.mem_singleton] at hb
  subst hb
  exact Nat.lt_succ_of_le (le_foldl_max l 0 x hx)

/-! ### Aggregate freshness (claims C1, C5, C9) -/

/-- The stored aggregate columns of a `Set` row agree with a fresh
recomputation over its current child reps. -/
def aggsFresh (s : WorkoutSet) : Prop :=
  s.avg_depth = listMean (presentVals Rep.depth s.reps) ∧
  s.avg_velocity = listMean (presentVals Rep.velocity s.reps) ∧
  s.min_velocity = listMin (presentVals Rep.velocity s.reps) ∧
  s.max_velocity = listMax (presentVals Rep.velocity s.reps)

theorem aggsFresh_setAggs (s : WorkoutSet) :
    aggsFresh (setAggs s (recalcAggs s.reps)) :=
  ⟨rfl, rfl, rfl, rfl⟩

theorem presentVals_append {α : Type} (f : α → Option ℚ) (l₁ l₂ : List α) :
    presentVals f (l₁ ++ l₂) = presentVals f l₁ ++ presentVals f l₂ :=
  List.filterMap_append l₁ l₂ _

theorem zero_not_mem_presentVals {α : Type} (f : α → Option ℚ) (l : List α) :
    (0 : ℚ) ∉ presentVals f l := by
  intro h
  rw [presentVals, List.mem_filterMap] at h
  obtain ⟨a, -, ha⟩ := h
  cases hfa : f a with
  | none => rw [hfa] at ha; exact Option.noConfusion ha
  | some v =>
    rw [hfa] at ha
    by_cases hv : v = 0
    · simp [hv] at ha
    · simp [hv] at ha

/-- Claim C1: after every rep insert (`add_rep_to_set`) and every rep delete
(`delete_rep_from_set`), the stored aggregates of the set equal their
recomputation over the set's current reps ("present" being the source's own
presence test, which also treats `0` as absent — see C5); and whenever no
rep contributes a value, the corresponding aggregate is `none`, never `0`. -/
theorem C1_aggregates_fresh (s : WorkoutSet) (freshId : Nat) (d : Option ℚ)
    (q : Option String) (rid : Nat) :
    aggsFresh (add_rep_to_set s freshId d q) ∧
    (∀ s', delete_rep_from_set s rid = some s' → aggsFresh s') ∧
    (∀ s', aggsFresh s' →
      (presentVals Rep.velocity s'.reps = [] →
        s'.avg_velocity = none ∧ s'.min_velocity = none ∧ s'.max_velocity = none) ∧
      (presentVals Rep.depth s'.reps = [] → s'.avg_depth = none)) := by
  refine ⟨⟨rfl, rfl, rfl, rfl⟩, ?_, ?_⟩
  · intro s' h
    simp only [delete_rep_from_set] at h
    split at h
    · rw [Option.some_inj] at h
      subst h
      split
      · next hemp =>
        have hnil : (s.reps.eraseP (fun r => r.id == rid)) = [] := by
          simpa using hemp
        refine ⟨?_, ?_, ?_, ?_⟩ <;> simp [hnil, presentVals, listMean, listMin, listMax]
      · exact aggsFresh_setAggs _
    · exact Option.noConfusion h
  · intro s' hf
    refine ⟨fun he => ⟨?_, ?_, ?_⟩, fun he => ?_⟩
    · rw [hf.2.1, he]; rfl
    · rw [hf.2.2.1, he]; rfl
    · rw [hf.2.2.2, he]; rfl
    · rw [hf.1, he]; rfl

def c1Set : WorkoutSet :=
  { id := 1, set_number := 1, reps_completed := 1, avg_depth := some 12,
    avg_velocity := none, min_velocity := none, max_velocity := none,
    fatigue_drop := none,
    reps := [{ id := 1, rep_number := 1, depth := some 12, time_seconds := none,
               velocity := none, quality := none }] }

def c1Deleted : WorkoutSet :=
  { id := 1, set_number := 1, reps_completed := 0, avg_depth := none,
    avg_velocity := none, min_velocity := none, max_velocity := none,
    fatigue_drop := none, reps := [] }

/-- Witness for C1 at a concrete one-rep set: the delete hypothesis is
discharged by evaluation. -/
theorem C1_aggregates_fresh_witness :
    delete_rep_from_set c1Set 1 = some c1Deleted ∧
    aggsFresh (add_rep_to_set c1Set 2 (some 10) none) ∧ aggsFresh c1Deleted := by
  have h := C1_aggregates_fresh c1Set 2 (some 10) none 1
  exact ⟨by decide, h.1, h.2.1 c1Deleted (by decide)⟩

/-- Claim C5: a velocity or depth recorded as exactly `0` is excluded from
the aggregate samples exactly as if the field were missing: replacing a
zero reading by `None` changes neither the recalculated aggregates of a set
nor the sample list used by `add_set`; and `0` never occurs in a sample
list. -/
theorem C5_zero_reading_absent (l1 l2 : List Rep) (r : Rep)
    (d1 d2 : List RepData) (rd : RepData) (reps : List Rep) :
    (r.velocity = some 0 →
      recalcAggs (l1 ++ r :: l2) = recalcAggs (l1 ++ { r with velocity := none } :: l2)) ∧
    (r.depth = some 0 →
      recalcAggs (l1 ++ r :: l2) = recalcAggs (l1 ++ { r with depth := none } :: l2)) ∧
    (rd.velocity = some 0 →
      presentVals RepData.velocity (d1 ++ rd :: d2)
        = presentVals RepData.velocity (d1 ++ { rd with velocity := none } :: d2)) ∧
    (rd.depth = some 0 →
      presentVals RepData.depth (d1 ++ rd :: d2)
        = presentVals RepData.depth (d1 ++ { rd with depth := none } :: d2)) ∧
    (0 : ℚ) ∉ presentVals Rep.velocity reps ∧
    (0 : ℚ) ∉ presentVals Rep.depth reps := by
  refine ⟨?_, ?_, ?_, ?_, zero_not_mem_presentVals _ _, zero_not_mem_presentVals _ _⟩
  · intro hv
    unfold recalcAggs
    simp [presentVals, List.filterMap_append, List.filterMap_cons, hv]
  · intro hd
    unfold recalcAggs
    simp [presentVals, List.filterMap_append, List.filterMap_cons, hd]
  · intro hv
    simp [presentVals, List.filterMap_append, List.filterMap_cons, hv]
  · intro hd
    simp [presentVals, List.filterMap_append, List.filterMap_cons, hd]

def c5RepZero : Rep :=
  { id := 1, rep_number := 1, depth := some 5, time_seconds := none,
    velocity := some 0, quality := none }

def c5RepTen : Rep :=
  { id := 2, rep_number := 2, depth := none, time_seconds := none,
    velocity := some 10, quality := none }

/-- Witness for C5: a concrete set of two reps where one velocity is a
genuine `0` reading. -/
theorem C5_zero_reading_absent_witness :
    recalcAggs [c5RepZero, c5RepTen]
      = recalcAggs [{ c5RepZero with velocity := none }, c5RepTen] ∧
    (0 : ℚ) ∉ presentVals Rep.velocity [c5RepZero, c5RepTen] := by
  have h := C5_zero_reading_absent [] [c5RepTen] c5RepZero [] [] ⟨none, none, none, none⟩
    [c5RepZero, c5RepTen]
  exact ⟨h.1 rfl, h.2.2.2.2.1⟩

/-- Claim C9 is false as stated: `fatigue_drop` is never recomputed from the
current reps.  Two sets whose rep collections coincide after a rep delete
keep their different, payload-supplied `fatigue_drop` values, so the stored
`fatigue_drop` is not a function of the current rep collection. -/
theorem C9_counterexample :
    delete_rep_from_set
        { id := 1, set_number := 1, reps_completed := 1, avg_depth := none,
          avg_velocity := some 10, min_velocity := some 10, max_velocity := some 10,
          fatigue_drop := some 50,
          reps := [{ id := 1, rep_number := 1, depth := none, time_seconds := none,
                     velocity := some 10, quality := none }] } 1
      = some { id := 1, set_number := 1, reps_completed := 0, avg_depth := none,
               avg_velocity := none, min_velocity := none, max_velocity := none,
               fatigue_drop := some 50, reps := [] } ∧
    delete_rep_from_set
        { id := 2, set_number := 1, reps_completed := 1, avg_depth := none,
          avg_velocity := some 10, min_velocity := some 10, max_velocity := some 10,
          fatigue_drop := some 10,
          reps := [{ id := 1, rep_number := 1, depth := none, time_seconds := none,
                     velocity := some 10, quality := none }] } 1
      = some { id := 2, set_number := 1, reps_completed := 0, avg_depth := none,
               avg_velocity := none, min_velocity := none, max_velocity := none,
               fatigue_drop := some 10, reps := [] } ∧
    (some (50 : ℚ) : Option ℚ) ≠ some (10 : ℚ) := by
  decide

/-- Claim C9 (amended): rep insert and rep delete synchronously recompute
`avg_depth`, `avg_velocity`, `min_velocity` and `max_velocity`, but they
leave `fatigue_drop` untouched; `fatigue_drop` is only ever set at set
creation, copied from the client payload, and is never recomputed from the
rep collection. -/
theorem C9_fatigue_drop_never_recomputed (s : WorkoutSet) (freshId rid : Nat)
    (d : Option ℚ) (q : Option String) (i n b : Nat) (p : SetPayload) :
    (add_rep_to_set s freshId d q).fatigue_drop = s.fatigue_drop ∧
    (∀ s', delete_rep_from_set s rid = some s' → s'.fatigue_drop = s.fatigue_drop) ∧
    (build_set i n b p).fatigue_drop = p.fatigue_drop ∧
    aggsFresh (add_rep_to_set s freshId d q) := by
  refine ⟨rfl, ?_, rfl, ⟨rfl, rfl, rfl, rfl⟩⟩
  intro s' h
  simp only [delete_rep_from_set] at h
  split at h
  · rw [Option.some_inj] at h
    subst h
    split <;> rfl
  · exact Option.noConfusion h

/-- Witness for C9's amended theorem at a concrete one-rep set. -/
theorem C9_fatigue_drop_never_recomputed_witness :
    delete_rep_from_set c1Set 1 = some c1Deleted ∧
    c1Deleted.fatigue_drop = c1Set.fatigue_drop := by
  have h := C9_fatigue_drop_never_recomputed c1Set 2 1 (some 10) none 1 1 1
    ⟨[], none, none⟩
  exact ⟨by decide, h.2.1 c1Deleted (by decide)⟩

/-! ### Route gating (claim C2) -/

/-- Claim C2 is false as stated: the `/programs` route performs no
subscription check, so an authenticated principal with `subscribed = False`
is granted access to it. -/
theorem C2_counterexample :
    programs_page { id := 1, email := "a@x.com", subscribed := false,
                    stripe_customer_id := none, subscription_type := none,
                    is_coach := false, coach_id := none,
                    needs_password_setup := false } = PageAccess.granted ∧
    ({ id := 1, email := "a@x.com", subscribed := false,
       stripe_customer_id := none, subscription_type := none,
       is_coach := false, coach_id := none,
       needs_password_setup := false } : User).subscribed = false :=
  ⟨rfl, rfl⟩

/-- Claim C2 (amended): for every authenticated principal, the tracker and
dashboard routes are granted exactly when `subscribed` is true, while the
programs route is granted to every authenticated principal, subscribed or
not. -/
theorem C2_route_gating (u : User) :
    (tracker u = PageAccess.granted ↔ u.subscribed = true) ∧
    (dashboard u = PageAccess.granted ↔ u.subscribed = true) ∧
    programs_page u = PageAccess.granted := by
  refine ⟨?_, ?_, rfl⟩ <;>
    cases hu : u.subscribed <;> simp [tracker, dashboard, hu]

/-! ### Non-coach cannot touch video_url (claim C3) -/

theorem applyExerciseFields_video_url (e : ProgramExercise) (data : ExercisePayload) :
    (applyExerciseFields e data).video_url = e.video_url := by
  unfold applyExerciseFields
  cases data.name <;> cases data.sets_prescribed <;> cases data.reps_prescribed <;>
    cases data.weight_prescribed <;> cases data.notes <;> cases data.order <;>
    cases data.exercise_type <;> rfl

/-- Claim C3: for a principal whose `is_coach` flag is false, `add_exercise`
always leaves `video_url` at `None` and `update_exercise` never changes it,
whatever the payload carries and even when the principal owns the program. -/
theorem C3_noncoach_video_url_unchanged (u : User) (prog : Program)
    (day_id : Nat) (exs : List ProgramExercise) (freshId : Nat)
    (e : ProgramExercise) (data : ExercisePayload)
    (h : u.is_coach = false) :
    (∀ e1, add_exercise u prog day_id exs freshId data = .ok e1 →
      e1.video_url = none) ∧
    (∀ e2, update_exercise u prog e data = .ok e2 →
      e2.video_url = e.video_url) := by
  constructor
  · intro e1 h1
    simp only [add_exercise, h, Bool.false_and, Bool.false_eq_true, if_false] at h1
    split at h1
    · exact Except.noConfusion h1
    · rw [Except.ok.injEq] at h1
      subst h1
      rfl
  · intro e2 h2
    simp only [update_exercise, h, Bool.false_and, Bool.false_eq_true, if_false] at h2
    split at h2
    · exact Except.noConfusion h2
    · rw [Except.ok.injEq] at h2
      subst h2
      exact applyExerciseFields_video_url e data

def c3User : User :=
  { id := 7, email := "athlete@x.com", subscribed := true,
    stripe_customer_id := none, subscription_type := some "monthly",
    is_coach := false, coach_id := none, needs_password_setup := false }

def c3Program : Program :=
  { id := 3, coach_id := none, athlete_id := 7 }

def c3Exercise : ProgramExercise :=
  { id := 11, program_day_id := 4, name := "Squat", video_url := some "v.mp4",
    sets_prescribed := 3, reps_prescribed := "8-10", weight_prescribed := none,
    notes := none, order := 0, exercise_type := "standard" }

def c3Payload : ExercisePayload :=
  { name := some "Front Squat", sets_prescribed := none, reps_prescribed := none,
    weight_prescribed := none, notes := none, order := none,
    exercise_type := none, video_url := some (some "https://evil/clip.mp4") }

/-- Witness for C3: a non-coach athlete who owns the program sends a payload
carrying `video_url`; the update succeeds but `video_url` stays what it was,
and a freshly added exercise gets no `video_url`. -/
theorem C3_noncoach_video_url_unchanged_witness :
    update_exercise c3User c3Program c3Exercise c3Payload
      = .ok { c3Exercise with name := "Front Squat" } ∧
    ({ c3Exercise with name := "Front Squat" } : ProgramExercise).video_url
      = c3Exercise.video_url ∧
    add_exercise c3User c3Program 4 [] 12 c3Payload
      = .ok { id := 12, program_day_id := 4, name := "Front Squat",
              video_url := none, sets_prescribed := 3, reps_prescribed := "8-10",
              weight_prescribed := none, notes := none, order := 0,
              exercise_type := "standard" } ∧
    ({ id := 12, program_day_id := 4, name := "Front Squat",
       video_url := none, sets_prescribed := 3, reps_prescribed := "8-10",
       weight_prescribed := none, notes := none, order := 0,
       exercise_type := "standard" } : ProgramExercise).video_url = none := by
  have h := C3_noncoach_video_url_unchanged c3User c3Program 4 [] 12 c3Exercise
    c3Payload rfl
  refine ⟨by rfl, ?_, by rfl, ?_⟩
  · exact h.2 { c3Exercise with name := "Front Squat" } (by rfl)
  · exact h.1 _ (by rfl)

/-! ### reps_completed bookkeeping (claim C4) -/

def c4Payload : SetPayload :=
  { reps := [{ depth := none, time_seconds := none, velocity := none,
               quality := none }],
    reps_completed := some 5, fatigue_drop := none }

def c4Set : WorkoutSet :=
  { id := 1, set_number := 1, reps_completed := 5, avg_depth := none,
    avg_velocity := none, min_velocity := none, max_velocity := none,
    fatigue_drop := none,
    reps := [{ id := 100, rep_number := 1, depth := none, time_seconds := none,
               velocity := none, quality := none }] }

/-- Claim C4 fails on the code: `add_set` stores the client-supplied
`reps_completed` (here `5`) while creating a single child `Rep` row, and
`add_rep_to_set` stores the rep count plus one (the pending rep is flushed
into the COUNT before `+ 1` is added), so after adding one rep to this set
the stored value is `3` against `2` rep rows. -/
theorem C4_reps_completed_mismatch :
    add_set [] 1 100 c4Payload = [c4Set] ∧
    c4Set.reps_completed = 5 ∧ c4Set.reps.length = 1 ∧
    (add_rep_to_set c4Set 9 (some 10) none).reps_completed = 3 ∧
    (add_rep_to_set c4Set 9 (some 10) none).reps.length = 2 := by
  decide

/-! ### Sequence numbering (claim C6) -/

def c6SetOne : WorkoutSet :=
  { id := 1, set_number := 1, reps_completed := 0, avg_depth := none,
    avg_velocity := none, min_velocity := none, max_velocity := none,
    fatigue_drop := none, reps := [] }

def c6SetTwo : WorkoutSet :=
  { id := 2, set_number := 2, reps_completed := 0, avg_depth := none,
    avg_velocity := none, min_velocity := none, max_velocity := none,
    fatigue_drop := none, reps := [] }

/-- Claim C6 is false as stated: deleting a set does not renumber the
survivors, so after deleting set number 1 of a two-set workout the
remaining `set_number`s are `[2]`, not the contiguous 1-based run `[1]`. -/
theorem C6_counterexample :
    delete_set [c6SetOne, c6SetTwo] 1 = some [c6SetTwo] ∧
    setNumbers [c6SetTwo] ≠ List.range' 1 [c6SetTwo].length := by
  decide

theorem addSets_go_numbers (ps : List SetPayload) :
    ∀ acc : List WorkoutSet, setNumbers acc = List.range' 1 acc.length →
      setNumbers (List.foldl (fun acc2 p => add_set acc2 acc2.length 0 p) acc ps)
        = List.range' 1 (acc.length + ps.length) := by
  induction ps with
  | nil => intro acc h; simpa using h
  | cons p ps ih =>
    intro acc h
    have h' : List.map WorkoutSet.set_number acc = List.range' 1 acc.length := h
    have hmax : nextSetNumber acc = acc.length + 1 := by
      unfold nextSetNumber
      rw [show acc.foldl (fun m s => max m s.set_number) 0
            = (List.map WorkoutSet.set_number acc).foldl max 0 from
          (List.foldl_map _ _ _ _).symm]
      rw [h', foldl_max_range']
    have hnum : setNumbers (add_set acc acc.length 0 p)
        = List.range' 1 (acc.length + 1) := by
      have hconcat := @List.range'_concat 1 1 acc.length
      simp only [Nat.one_mul] at hconcat
      simp only [add_set, setNumbers, List.map_append, List.map_cons, List.map_nil,
        build_set]
      rw [h', hconcat, hmax]
      simp [Nat.add_comm]
    have hlen : (add_set acc acc.length 0 p).length = acc.length + 1 := by
      simp [add_set]
    rw [List.foldl_cons]
    have hrec := ih (add_set acc acc.length 0 p) (by rw [hnum, hlen])
    rw [hlen] at hrec
    rw [hrec]
    congr 1
    simp only [List.length_cons]
    omega

/-- Claim C6 (amended): `set_number`s stay pairwise distinct (in fact
strictly increasing in row order) after every add and every delete, and a
workout populated by `add_set` calls alone carries the contiguous run
`1, …, n`; but `delete_set` does not renumber, so after a delete the run
need not be contiguous or 1-based.  `rep_number` behaves the same way under
`add_rep_to_set` / `delete_rep_from_set`. -/
theorem C6_sequence_numbers (ps : List SetPayload) (sets : List WorkoutSet)
    (p : SetPayload) (nid rb sid rid freshId : Nat) (s : WorkoutSet)
    (d : Option ℚ) (q : Option String)
    (hs : (setNumbers sets).Pairwise (· < ·))
    (hr : (repNumbers s.reps).Pairwise (· < ·)) :
    setNumbers (applyAddSets ps) = List.range' 1 ps.length ∧
    (setNumbers (add_set sets nid rb p)).Pairwise (· < ·) ∧
    (∀ sets', delete_set sets sid = some sets' →
      (setNumbers sets').Pairwise (· < ·)) ∧
    (repNumbers (add_rep_to_set s freshId d q).reps).Pairwise (· < ·) ∧
    (∀ s', delete_rep_from_set s rid = some s' →
      (repNumbers s'.reps).Pairwise (· < ·)) := by
  refine ⟨?_, ?_, ?_, ?_, ?_⟩
  · have h := addSets_go_numbers ps [] rfl
    simpa [applyAddSets] using h
  · have heq : setNumbers (add_set sets nid rb p)
        = setNumbers sets ++ [(setNumbers sets).foldl max 0 + 1] := by
      simp only [add_set, setNumbers, List.map_append, List.map_cons, List.map_nil,
        build_set]
      congr 2
      unfold nextSetNumber
      rw [List.foldl_map]
    rw [heq]
    exact pairwise_lt_append_next _ hs
  · intro sets' hdel
    simp only [delete_set] at hdel
    split at hdel
    · rw [Option.some_inj] at hdel
      subst hdel
      exact hs.sublist ((List.eraseP_sublist sets).map WorkoutSet.set_number)
    · exact Option.noConfusion hdel
  · have heq : repNumbers (add_rep_to_set s freshId d q).reps
        = repNumbers s.reps ++ [(repNumbers s.reps).foldl max 0 + 1] := by
      simp only [add_rep_to_set, setAggs, repNumbers, List.map_append,
        List.map_cons, List.map_nil]
      congr 2
      unfold nextRepNumber
      rw [List.foldl_map]
    rw [heq]
    exact pairwise_lt_append_next _ hr
  · intro s' hdel
    simp only [delete_rep_from_set] at hdel
    split at hdel
    · rw [Option.some_inj] at hdel
      subst hdel
      split
      · exact hr.sublist ((List.eraseP_sublist s.reps).map Rep.rep_number)
      · exact hr.sublist ((List.eraseP_sublist s.reps).map Rep.rep_number)
    · exact Option.noConfusion hdel

def c6Payload : SetPayload :=
  { reps := [], reps_completed := none, fatigue_drop := none }

/-- Witness for C6's amended theorem on a concrete two-set workout. -/
theorem C6_sequence_numbers_witness :
    setNumbers (applyAddSets [c6Payload, c6Payload]) = List.range' 1 2 ∧
    (setNumbers (add_set [c6SetOne, c6SetTwo] 3 0 c6Payload)).Pairwise (· < ·) ∧
    (setNumbers [c6SetTwo]).Pairwise (· < ·) ∧
    (repNumbers (add_rep_to_set c6SetOne 5 none none).reps).Pairwise (· < ·) := by
  have h := C6_sequence_numbers [c6Payload, c6Payload] [c6SetOne, c6SetTwo]
    c6Payload 3 0 1 1 5 c6SetOne none none (by decide) (by decide)
  exact ⟨h.1, h.2.1, h.2.2.1 [c6SetTwo] (by decide), h.2.2.2.1⟩

/-! ### Checkout webhook idempotence (claim C8) -/

/-- Claim C8: delivering the same `checkout.session.completed` event twice
for one email yields exactly one `User` row for that email, subscribed after
both deliveries — the replay updates the row created (or found) by the first
delivery instead of creating a duplicate.  The hypothesis is the store's
unique constraint on `User.email`. -/
theorem C8_checkout_idempotent (users : List User) (email : String)
    (cid : Option String) (stype : String)
    (h : users.countP (fun u => u.email == email) ≤ 1) :
    ((checkout_completed (checkout_completed users email cid stype) email cid stype).countP
        (fun u => u.email == email) = 1) ∧
    (∀ u ∈ checkout_completed (checkout_completed users email cid stype) email cid stype,
      (u.email == email) = true → u.subscribed = true) := by
  have hpres : ∀ u : User,
      (({ u with subscribed := true, stripe_customer_id := cid,
                 subscription_type := some stype } : User).email == email)
        = (u.email == email) := fun u => rfl
  have hcount1 : (checkout_completed users email cid stype).countP
      (fun u => u.email == email) = 1 := by
    unfold checkout_completed
    cases hf : users.find? (fun u => u.email == email) with
    | none =>
      have hzero : users.countP (fun u => u.email == email) = 0 :=
        List.countP_eq_zero.mpr (List.find?_eq_none.mp hf)
      rw [List.countP_append, hzero]
      simp
    | some u =>
      rw [countP_updateFirst _ _ _ hpres]
      have hmem : u ∈ users := List.mem_of_find?_eq_some hf
      have hp := List.find?_some hf
      have hone : 0 < users.countP (fun w => w.email == email) :=
        List.countP_pos_iff.mpr ⟨u, hmem, hp⟩
      omega
  have hsome : ∃ v, (checkout_completed users email cid stype).find?
      (fun u => u.email == email) = some v := by
    cases hf2 : (checkout_completed users email cid stype).find?
        (fun u => u.email == email) with
    | some v => exact ⟨v, rfl⟩
    | none =>
      exfalso
      have hzero : (checkout_completed users email cid stype).countP
          (fun u => u.email == email) = 0 :=
        List.countP_eq_zero.mpr (List.find?_eq_none.mp hf2)
      omega
  obtain ⟨v, hv⟩ := hsome
  constructor
  · conv_lhs => rw [checkout_completed, hv]
    rw [countP_updateFirst _ _ _ hpres]
    exact hcount1
  · intro u hu hpu
    rw [checkout_completed, hv] at hu
    obtain ⟨b, -, rfl⟩ := mem_updateFirst_of_count_le_one _ _ _
      (by omega) u hu hpu
    rfl

/-- Witness for C8: an empty user table receives the same checkout event for
`jane@x.com` twice. -/
theorem C8_checkout_idempotent_witness :
    ((checkout_completed (checkout_completed [] "jane@x.com" none "monthly")
        "jane@x.com" none "monthly").countP
      (fun u => u.email == "jane@x.com") = 1) ∧
    (∀ u ∈ checkout_completed (checkout_completed [] "jane@x.com" none "monthly")
        "jane@x.com" none "monthly",
      (u.email == "jane@x.com") = true → u.subscribed = true) :=
  C8_checkout_idempotent [] "jane@x.com" none "monthly" (by decide)

/-! ### Invite redemption (claims C7, C10) -/

/-- Claim C10: every successful redemption of a coach invite — by an
existing user without a different coach, or by a newly created user — leaves
the redeeming user with `subscribed = true` and `subscription_type =
'coach'`, i.e. full subscribed access without any billing event. -/
theorem C10_invite_grants_subscription (st : JoinState) (t email pw : String)
    (now : Nat) (st1 : JoinState)
    (h : process_join_invite st t email pw now = .ok st1) :
    ∃ u, st1.users.find? (fun v => v.email == email) = some u ∧
      u.subscribed = true ∧ u.subscription_type = some "coach" := by
  unfold process_join_invite at h
  cases hfind : st.invites.find? (pendingTokenMatch t) with
  | none => rw [hfind] at h; exact Except.noConfusion h
  | some inv =>
    rw [hfind] at h
    dsimp only at h
    split at h
    · exact Except.noConfusion h
    · split at h
      · exact Except.noConfusion h
      · cases hu : st.users.find? (fun v => v.email == email) with
        | some u =>
          rw [hu] at h
          dsimp only at h
          split at h
          · exact Except.noConfusion h
          · rw [Except.ok.injEq] at h
            subst h
            refine ⟨{ u with coach_id := some inv.coach_id, subscribed := true,
                             subscription_type := some "coach" }, ?_, rfl, rfl⟩
            have hmap := find?_updateFirst_map (fun v => v.email == email)
              (fun v => { v with coach_id := some inv.coach_id, subscribed := true,
                                 subscription_type := some "coach" })
              (fun v => rfl) st.users
            rw [hmap, hu]
            rfl
        | none =>
          rw [hu] at h
          dsimp only at h
          rw [Except.ok.injEq] at h
          subst h
          refine ⟨{ id := nextUserId st.users, email := email, subscribed := true,
                    stripe_customer_id := none, subscription_type := some "coach",
                    is_coach := false, coach_id := some inv.coach_id,
                    needs_password_setup := false }, ?_, rfl, rfl⟩
          rw [find?_append_of_none _ _ _ hu]
          exact List.find?_cons_of_pos _ (by simp)

def joinDemo : JoinState :=
  { users := [],
    invites := [{ id := 1, coach_id := 6, email := "a@x.com", token := "tok",
                  status := "pending", accepted_at := none, athlete_id := none }] }

def joinDemoAccepted : JoinState :=
  { users := [{ id := 1, email := "a@x.com", subscribed := true,
                stripe_customer_id := none, subscription_type := some "coach",
                is_coach := false, coach_id := some 6,
                needs_password_setup := false }],
    invites := [{ id := 1, coach_id := 6, email := "a@x.com", token := "tok",
                  status := "accepted", accepted_at := some 5,
                  athlete_id := some 1 }] }

/-- Witness for C10 at a concrete successful redemption. -/
theorem C10_invite_grants_subscription_witness :
    ∃ u, joinDemoAccepted.users.find? (fun v => v.email == "a@x.com") = some u ∧
      u.subscribed = true ∧ u.subscription_type = some "coach" :=
  C10_invite_grants_subscription joinDemo "tok" "a@x.com" "password1" 5
    joinDemoAccepted (by rfl)

/-- Claim C7: on a pending invite token, a first redemption call with valid
registration data (and a redeeming email that does not belong to a user with
a different coach) succeeds: it marks the invite accepted and links the
redeeming athlete to the inviting coach.  A second redemption call of the
same token is answered with the "Invalid or expired invitation link" error
— produced before any write, so it changes no state.  The token-uniqueness
hypothesis is the store's unique constraint on `CoachInvite.token`. -/
theorem C7_invite_single_use (st : JoinState) (t email pw : String)
    (now now2 : Nat) (inv : CoachInvite)
    (hfind : st.invites.find? (pendingTokenMatch t) = some inv)
    (htok : st.invites.countP (fun i => i.token == t) ≤ 1)
    (hemail : email ≠ "") (hpw : 8 ≤ pw.length)
    (hcoach : ∀ u, st.users.find? (fun v => v.email == email) = some u →
      (natOptTruthy u.coach_id && !(u.coach_id == some inv.coach_id)) = false) :
    ∃ st1, process_join_invite st t email pw now = .ok st1 ∧
      (∃ i1, st1.invites.find? (fun i => i.token == t) = some i1 ∧
        i1.status = "accepted" ∧ i1.coach_id = inv.coach_id) ∧
      (∃ u1, st1.users.find? (fun v => v.email == email) = some u1 ∧
        u1.coach_id = some inv.coach_id ∧ u1.subscribed = true) ∧
      process_join_invite st1 t email pw now2
        = .error "Invalid or expired invitation link" := by
  have hpq : ∀ i : CoachInvite, pendingTokenMatch t i = true → (i.token == t) = true := by
    intro i hi
    exact (Bool.and_eq_true_iff.mp hi).1
  have hne : email.isEmpty = false := by
    cases hq : email.isEmpty with
    | false => rfl
    | true => exact absurd ((String.isEmpty_iff email).mp hq) hemail
  have hpwne : pw.isEmpty = false := by
    cases hq : pw.isEmpty with
    | false => rfl
    | true =>
      exfalso
      have : pw = "" := (String.isEmpty_iff pw).mp hq
      rw [this] at hpw
      exact absurd hpw (by decide)
  have hplt : ¬ pw.length < 8 := Nat.not_lt.mpr hpw
  cases hu : st.users.find? (fun v => v.email == email) with
  | some u =>
    have hguard := hcoach u hu
    have hok : process_join_invite st t email pw now = .ok
        { users := updateFirst (fun v => v.email == email)
            (fun v => { v with coach_id := some inv.coach_id, subscribed := true,
                               subscription_type := some "coach" }) st.users,
          invites := updateFirst (pendingTokenMatch t)
            (fun i => { i with status := "accepted", accepted_at := some now,
                               athlete_id := some u.id }) st.invites } := by
      unfold process_join_invite
      rw [hfind, hu]
      simp [hne, hpwne, hplt, hguard]
    refine ⟨_, hok, ?_, ?_, ?_⟩
    · refine ⟨_, find?_updateFirst_of_found (pendingTokenMatch t) (fun i => i.token == t)
        (fun i => { i with status := "accepted", accepted_at := some now,
                           athlete_id := some u.id })
        hpq (fun i => rfl) st.invites htok inv hfind, rfl, rfl⟩
    · have hmap := find?_updateFirst_map (fun v => v.email == email)
        (fun v => { v with coach_id := some inv.coach_id, subscribed := true,
                           subscription_type := some "coach" })
        (fun v => rfl) st.users
      exact ⟨_, by rw [hmap, hu]; rfl, rfl, rfl⟩
    · have hnone : (updateFirst (pendingTokenMatch t)
          (fun i => { i with status := "accepted", accepted_at := some now,
                             athlete_id := some u.id }) st.invites).find?
            (pendingTokenMatch t) = none := by
        refine find?_updateFirst_none (pendingTokenMatch t) (fun i => i.token == t)
          _ hpq ?_ st.invites htok
        intro i
        simp [pendingTokenMatch]
      unfold process_join_invite
      rw [hnone]
  | none =>
    have hok : process_join_invite st t email pw now = .ok
        { users := st.users
            ++ [{ id := nextUserId st.users, email := email, subscribed := true,
                  stripe_customer_id := none, subscription_type := some "coach",
                  is_coach := false, coach_id := some inv.coach_id,
                  needs_password_setup := false }],
          invites := updateFirst (pendingTokenMatch t)
            (fun i => { i with status := "accepted", accepted_at := some now,
                               athlete_id := some (nextUserId st.users) }) st.invites } := by
      unfold process_join_invite
      rw [hfind, hu]
      simp [hne, hpwne, hplt]
    refine ⟨_, hok, ?_, ?_, ?_⟩
    · refine ⟨_, find?_updateFirst_of_found (pendingTokenMatch t) (fun i => i.token == t)
        (fun i => { i with status := "accepted", accepted_at := some now,
                           athlete_id := some (nextUserId st.users) })
        hpq (fun i => rfl) st.invites htok inv hfind, rfl, rfl⟩
    · refine ⟨{ id := nextUserId st.users, email := email, subscribed := true,
                stripe_customer_id := none, subscription_type := some "coach",
                is_coach := false, coach_id := some inv.coach_id,
                needs_password_setup := false }, ?_, rfl, rfl⟩
      rw [find?_append_of_none _ _ _ hu]
      exact List.find?_cons_of_pos _ (by simp)
    · have hnone : (updateFirst (pendingTokenMatch t)
          (fun i => { i with status := "accepted", accepted_at := some now,
                             athlete_id := some (nextUserId st.users) }) st.invites).find?
            (pendingTokenMatch t) = none := by
        refine find?_updateFirst_none (pendingTokenMatch t) (fun i => i.token == t)
          _ hpq ?_ st.invites htok
        intro i
        simp [pendingTokenMatch]
      unfold process_join_invite
      rw [hnone]

/-- Witness for C7 at a concrete pending invite redeemed twice. -/
theorem C7_invite_single_use_witness :
    ∃ st1, process_join_invite joinDemo "tok" "a@x.com" "password1" 5 = .ok st1 ∧
      (∃ i1, st1.invites.find? (fun i => i.token == "tok") = some i1 ∧
        i1.status = "accepted" ∧ i1.coach_id = 6) ∧
      (∃ u1, st1.users.find? (fun v => v.email == "a@x.com") = some u1 ∧
        u1.coach_id = some 6 ∧ u1.subscribed = true) ∧
      process_join_invite st1 "tok" "a@x.com" "password1" 9
        = .error "Invalid or expired invitation link" :=
  C7_invite_single_use joinDemo "tok" "a@x.com" "password1" 5 9
    { id := 1, coach_id := 6, email := "a@x.com", token := "tok",
      status := "pending", accepted_at := none, athlete_id := none }
    (by rfl) (by decide) (by decide) (by decide)
    (fun u h => Option.noConfusion h)

end Chronicle
